import Mathlib

/-!
Shallow embedding of the `yad` download-manager frontend
(`src/assets/js/main.js` and its sibling variants).  The embedding covers:

* a model of JavaScript numbers (`JSNum`) with `NaN`/`Infinity`, needed
  because the progress listener performs unguarded division and reads of
  possibly-absent object properties;
* the progress reconciliation state (`downloadProgress`, a module-level
  object keyed by download id) and the `download-started` /
  `download-progress` event listeners;
* the `getSize` byte formatter and the `isDownloadUrl` classifier
  (the regex-only variant the claims cite);
* the `getRecords` record-store refresh with its try/catch structure.
-/

namespace Yad

/-- A JavaScript number: a finite value (idealised as a rational),
`NaN`, `+Infinity` or `-Infinity`. -/
inductive JSNum where
  | num : ℚ → JSNum
  | nan : JSNum
  | inf : JSNum
  | ninf : JSNum
deriving DecidableEq, Repr

/-- JavaScript `+` on numbers. -/
def jsAdd : JSNum → JSNum → JSNum
  | .num a, .num b => .num (a + b)
  | .nan, _ => .nan
  | _, .nan => .nan
  | .inf, .ninf => .nan
  | .ninf, .inf => .nan
  | .inf, _ => .inf
  | _, .inf => .inf
  | .ninf, _ => .ninf
  | _, .ninf => .ninf

/-- JavaScript `*` on numbers. -/
def jsMul : JSNum → JSNum → JSNum
  | .num a, .num b => .num (a * b)
  | .nan, _ => .nan
  | _, .nan => .nan
  | .inf, .num b => if 0 < b then .inf else if b < 0 then .ninf else .nan
  | .num a, .inf => if 0 < a then .inf else if a < 0 then .ninf else .nan
  | .ninf, .num b => if 0 < b then .ninf else if b < 0 then .inf else .nan
  | .num a, .ninf => if 0 < a then .ninf else if a < 0 then .inf else .nan
  | .inf, .inf => .inf
  | .ninf, .ninf => .inf
  | .inf, .ninf => .ninf
  | .ninf, .inf => .ninf

/-- JavaScript `/` on numbers (division by zero yields an infinity or
`NaN`, never an exception). -/
def jsDiv : JSNum → JSNum → JSNum
  | .nan, _ => .nan
  | _, .nan => .nan
  | .num a, .num b =>
      if b = 0 then (if 0 < a then .inf else if a < 0 then .ninf else .nan)
      else .num (a / b)
  | .inf, .num b => if b < 0 then .ninf else .inf
  | .ninf, .num b => if b < 0 then .inf else .ninf
  | .num _, .inf => .num 0
  | .num _, .ninf => .num 0
  | _, .inf => .nan
  | _, .ninf => .nan

/-- Reading an object property that may be absent (`undefined`) and adding a
number to it: `undefined + d` is `NaN` in JavaScript. -/
def jsAddOpt : Option JSNum → JSNum → JSNum
  | none, _ => .nan
  | some a, b => jsAdd a b

/-- Rounding to the nearest integer, ties toward `+∞` — the rounding both
`Math.round` and `Number.prototype.toFixed` perform. -/
def roundTiesUp (q : ℚ) : ℤ := (q + 1 / 2).floor

/-- `x.toFixed(0)`, kept as a number: finite values are rounded
half-up to an integer; `NaN` and the infinities stringify to `"NaN"` /
`"Infinity"`, modelled by passing the non-finite value through. -/
def toFixed0 : JSNum → JSNum
  | .num q => .num ((roundTiesUp q : ℤ) : ℚ)
  | x => x

/-- The percentage computed by the `download-progress` listener:
`(currentSize / totalSize) * 100` followed by `.toFixed(0)`
(main.js variant `part_001`, lines 282–283).  No clamping is performed. -/
def derivedPercentage (currentSize : JSNum) (totalSize : ℚ) : JSNum :=
  toFixed0 (jsMul (jsDiv currentSize (.num totalSize)) (.num 100))

/-- The engine state: the module-level object `downloadProgress = {}`,
keyed by download id; `none` models an absent key (`undefined`). -/
structure EngineState where
  downloadProgress : Nat → Option JSNum

/-- `let downloadProgress = {};` — the initial, empty accumulator map. -/
def initialState : EngineState := ⟨fun _ => none⟩

/-- The `download-started` listener's effect on `downloadProgress`:
`downloadProgress[data.downloadId] = 0;` — unconditional, whether or not
the key already exists. -/
def handleStarted (st : EngineState) (downloadId : Nat) : EngineState :=
  ⟨fun i => if i = downloadId then some (.num 0) else st.downloadProgress i⟩

/-- The `download-progress` listener: reads the accumulator
(`let currentSize = downloadProgress[id]; currentSize += downloaded;`),
derives the percentage, and stores `downloadProgress[id] += downloaded`.
Returns the updated state together with the percentage value rendered
into the progress cell. -/
def handleProgress (st : EngineState) (downloadId : Nat)
    (downloaded totalSize : ℚ) : EngineState × JSNum :=
  let currentSize := jsAddOpt (st.downloadProgress downloadId) (.num downloaded)
  let percentage := derivedPercentage currentSize totalSize
  (⟨fun i => if i = downloadId then
       some (jsAddOpt (st.downloadProgress downloadId) (.num downloaded))
     else st.downloadProgress i⟩,
   percentage)

/-- The backend lifecycle events the listeners subscribe to.  The
`download-finished` and `download-message` listeners only `console.log`,
so they leave the engine state unchanged. -/
inductive Event where
  | started (downloadId : Nat)
  | progress (downloadId : Nat) (downloaded totalSize : ℚ)
  | finished (downloadId : Nat)
  | message (downloadId : Nat)

/-- One event delivery. -/
def step (st : EngineState) : Event → EngineState
  | .started id => handleStarted st id
  | .progress id d t => (handleProgress st id d t).1
  | .finished _ => st
  | .message _ => st

/-- Delivering a sequence of events in order. -/
def run (st : EngineState) (evs : List Event) : EngineState :=
  evs.foldl step st

/-- Stringifying `Math.round(finalSize * 10) / 10`: the argument is the
rounded integer `r`; JavaScript prints `r / 10` without a decimal point
when it is an integer, otherwise with one decimal digit.  Sizes are
non-negative, so only non-negative `r` occur. -/
def fmtTenth (r : ℤ) : String :=
  if r % 10 = 0 then toString (r / 10)
  else toString (r / 10) ++ "." ++ toString (r % 10)

/-- `getSize` (main.js lines 20–38): base-1024 unit selection; note that
the final branch divides by `1073741824 * 1024` (i.e. 1024^4) while
labelling the result `GB`. -/
def getSize (size : ℚ) : String :=
  let p : ℚ × String :=
    if size < 1024 then (size, "Bytes")
    else if size < 1048576 then (size / 1024, "KB")
    else if size < 1073741824 then (size / 1048576, "MB")
    else (size / (1073741824 * 1024), "GB")
  fmtTenth (roundTiesUp (p.1 * 10)) ++ " " ++ p.2

/-- Character class `[a-zA-Z\._0-9-\/]` of the host/path group in
`isDownloadUrl`'s regex. -/
def isAChar (c : Char) : Bool :=
  ('a' ≤ c && c ≤ 'z') || ('A' ≤ c && c ≤ 'Z') || c == '.' || c == '_'
    || ('0' ≤ c && c ≤ '9') || c == '-' || c == '/'

/-- Character class `[a-zA-Z0-9\._-]` of the final path segment. -/
def isBChar (c : Char) : Bool :=
  ('a' ≤ c && c ≤ 'z') || ('A' ≤ c && c ≤ 'Z') || ('0' ≤ c && c ≤ '9')
    || c == '.' || c == '_' || c == '-'

/-- Character class `[a-z0-9]` required right after the final dot. -/
def isCChar (c : Char) : Bool :=
  ('a' ≤ c && c ≤ 'z') || ('0' ≤ c && c ≤ '9')

/-- Matches `\.[a-z0-9]` at the head of the list (the rest of the string
is unconstrained — the regex has no `$` anchor). -/
def matchDotC : List Char → Bool
  | '.' :: c :: _ => isCChar c
  | _ => false

/-- Backtracking continuation of `[a-zA-Z0-9\._-]+\.[a-z0-9]` after at
least one segment character has been consumed: either the dot-extension
starts here, or consume one more segment character. -/
def matchSegRest : List Char → Bool
  | [] => false
  | c :: rest => matchDotC (c :: rest) || (isBChar c && matchSegRest rest)

/-- Matches `[a-zA-Z0-9\._-]+\.[a-z0-9]` at the head of the list. -/
def matchSeg : List Char → Bool
  | [] => false
  | c :: rest => isBChar c && matchSegRest rest

/-- Backtracking continuation of `([a-zA-Z\._0-9-\/]+)\/` followed by the
segment pattern, after at least one host/path character: either the
mandatory `/` is here and the segment pattern follows, or consume one
more host/path character (the class itself contains `/`). -/
def matchHostRest : List Char → Bool
  | [] => false
  | c :: rest => (c == '/' && matchSeg rest) || (isAChar c && matchHostRest rest)

/-- Matches `([a-zA-Z\._0-9-\/]+)\/[a-zA-Z0-9\._-]+\.[a-z0-9]` at the
head of the list. -/
def matchHost : List Char → Bool
  | [] => false
  | c :: rest => isAChar c && matchHostRest rest

/-- One alternative of the scheme alternation: the string starts with
`sch` followed by `://`, and the remainder matches the host/segment
pattern. -/
def schemeTest (sch : String) (l : List Char) : Bool :=
  (sch.data ++ [':', '/', '/']).isPrefixOf l
    && matchHost (l.drop (sch.data ++ [':', '/', '/']).length)

/-- `isDownloadUrl` (main.js lines 40–43): `.test` of
`/^(https|http|ftp|ftps){1}:\/\/([a-zA-Z\._0-9-\/]+)\/[a-zA-Z0-9\._-]+\.[a-z0-9]/`
— no `i` flag, no `$` anchor, no file-extension allow-list. -/
def isDownloadUrl (s : String) : Bool :=
  schemeTest "https" s.data || schemeTest "http" s.data
    || schemeTest "ftp" s.data || schemeTest "ftps" s.data

/-- A record returned by the backend `fetch_records` query, with the
fields `getRecords` reads. -/
structure RecordItem where
  id : Nat
  file_name : String
  file_size : ℚ
  file_type : String
  download_status : String

/-- The `progressClass` selection inside `getRecords`. -/
def progressClass (status : String) : String :=
  if status == "Finished" then "success"
  else if status == "Pending" || status == "InProgress" then "info"
  else if status == "Failed" then "danger"
  else "warning"

/-- The `actionClass` selection inside `getRecords`. -/
def actionClass (status : String) : String :=
  if status == "Finished" then "primary"
  else if status == "Failed" || status == "Cancelled" || status == "Pending" then "success"
  else "warning"

/-- The `icon` selection inside `getRecords`. -/
def iconClass (status : String) : String :=
  if status == "Finished" then "fa fa-folder-open"
  else if status == "Failed" || status == "Cancelled" then "fa fa-play"
  else "fa fa-pause"

/-- The `progress` placeholder inside `getRecords`:
`status == "Finished" ? 100 : 50`. -/
def progressValue (status : String) : ℚ :=
  if status == "Finished" then 100 else 50

/-- One `<tr>` of the table body built by `getRecords` (main.js variant
`part_001`, lines 175–203), as the HTML string appended to `htmlBody`. -/
def renderRow (item : RecordItem) : String :=
  let status := item.download_status
  "<tr id=\"" ++ toString item.id ++ "\">"
    ++ "<td>" ++ item.file_name ++ "</td>"
    ++ "<td id=\"size=" ++ toString item.id ++ "\">" ++ getSize item.file_size ++ "</td>"
    ++ "<td id=\"progress-" ++ toString item.id ++ "\">"
    ++ "<div class=\"progress\" role=\"progressbar\" aria-label=\"" ++ status
    ++ "\" aria-valuenow=\"" ++ fmtTenth (roundTiesUp (progressValue status * 10))
    ++ "\" aria-valuemax=\"100\">"
    ++ "<div class=\"progress-bar text-bg-" ++ progressClass status
    ++ "\" style=\"width: 100%\">" ++ fmtTenth (roundTiesUp (progressValue status * 10)) ++ "%</div>"
    ++ "</div></td>"
    ++ "<td>" ++ item.file_type ++ "</td>"
    ++ "<td><a href=\"#\" class=\"action-link btn btn-sm btn-outline-" ++ actionClass status
    ++ " btn-block\"><i class=\"" ++ iconClass status ++ "\"></i></a></td>"
    ++ "</tr>"

/-- `getRecords` (main.js variant `part_001`, lines 154–210): awaits the
backend `fetch_records` query inside `try`; on success it rebuilds
`htmlBody` from the returned records and replaces the table body's
`innerHTML`; on failure the `catch` block only logs, leaving the
previously rendered table untouched.  `domRecords` is the current
`innerHTML` of `download-records`. -/
def getRecords (fetched : Except String (List RecordItem)) (domRecords : String) : String :=
  match fetched with
  | .ok data => String.join (data.map renderRow)
  | .error _ => domRecords

/-! ## Helper lemmas -/

theorem run_cons (st : EngineState) (e : Event) (evs : List Event) :
    run st (e :: evs) = run (step st e) evs := rfl

theorem handleStarted_lookup (st : EngineState) (id : Nat) :
    (handleStarted st id).downloadProgress id = some (.num 0) := by
  simp [handleStarted]

theorem handleProgress_lookup (st : EngineState) (id : Nat) (d t : ℚ) :
    (handleProgress st id d t).1.downloadProgress id
      = some (jsAddOpt (st.downloadProgress id) (.num d)) := by
  simp [handleProgress]

theorem run_progress_sum (id : Nat) (ds : List (ℚ × ℚ)) :
    ∀ (st : EngineState) (a : ℚ), st.downloadProgress id = some (.num a) →
      (run st (ds.map fun p => Event.progress id p.1 p.2)).downloadProgress id
        = some (.num (a + (ds.map Prod.fst).sum)) := by
  induction ds with
  | nil => intro st a h; simpa [run] using h
  | cons d ds ih =>
    intro st a h
    have h1 : (step st (Event.progress id d.1 d.2)).downloadProgress id
        = some (.num (a + d.1)) := by
      simp [step, handleProgress, jsAddOpt, jsAdd, h]
    have h2 := ih _ _ h1
    simp only [List.map_cons, List.sum_cons, run_cons]
    rw [h2, add_assoc]

theorem roundTiesUp_nonneg (q : ℚ) (h : 0 ≤ q) : 0 ≤ roundTiesUp q := by
  rw [roundTiesUp]
  exact Rat.le_floor.mpr (by push_cast; linarith)

theorem roundTiesUp_le_hundred (q : ℚ) (h : q ≤ 100) : roundTiesUp q ≤ 100 := by
  rw [roundTiesUp]
  by_contra hcon
  push_neg at hcon
  have h101 : (101 : ℤ) ≤ Rat.floor (q + 1 / 2) := by omega
  have := Rat.le_floor.mp h101
  push_cast at this
  linarith

theorem isPrefixOf_self_append (p t : List Char) : p.isPrefixOf (p ++ t) = true := by
  induction p with
  | nil => simp
  | cons a as ih => simp [List.isPrefixOf, ih]

theorem drop_len_append (p t : List Char) : (p ++ t).drop p.length = t := by
  induction p with
  | nil => rfl
  | cons a as ih => simp [ih]

theorem matchSegRest_append (seg : List Char) (c : Char) (rest : List Char)
    (hseg : ∀ ch ∈ seg, isBChar ch = true) (hc : isCChar c = true) :
    matchSegRest (seg ++ '.' :: c :: rest) = true := by
  induction seg with
  | nil => simp [matchSegRest, matchDotC, hc]
  | cons a as ih =>
    have ha : isBChar a = true := hseg a (by simp)
    have := ih (fun ch hch => hseg ch (by simp [hch]))
    simp [matchSegRest, ha, this]

theorem matchSeg_append (seg : List Char) (c : Char) (rest : List Char)
    (hne : seg ≠ []) (hseg : ∀ ch ∈ seg, isBChar ch = true) (hc : isCChar c = true) :
    matchSeg (seg ++ '.' :: c :: rest) = true := by
  cases seg with
  | nil => exact absurd rfl hne
  | cons a as =>
    have ha : isBChar a = true := hseg a (by simp)
    have := matchSegRest_append as c rest (fun ch hch => hseg ch (by simp [hch])) hc
    simp [matchSeg, ha, this]

theorem matchHostRest_append (host t : List Char)
    (hhost : ∀ ch ∈ host, isAChar ch = true) (ht : matchSeg t = true) :
    matchHostRest (host ++ '/' :: t) = true := by
  induction host with
  | nil => simp [matchHostRest, ht]
  | cons a as ih =>
    have ha : isAChar a = true := hhost a (by simp)
    have := ih (fun ch hch => hhost ch (by simp [hch]))
    simp [matchHostRest, ha, this]

theorem matchHost_append (host t : List Char) (hne : host ≠ [])
    (hhost : ∀ ch ∈ host, isAChar ch = true) (ht : matchSeg t = true) :
    matchHost (host ++ '/' :: t) = true := by
  cases host with
  | nil => exact absurd rfl hne
  | cons a as =>
    have ha : isAChar a = true := hhost a (by simp)
    have := matchHostRest_append as t (fun ch hch => hhost ch (by simp [hch])) ht
    simp [matchHost, ha, this]

theorem schemeTest_append (sch : String) (tail : List Char) (h : matchHost tail = true) :
    schemeTest sch (sch.data ++ ':' :: '/' :: '/' :: tail) = true := by
  have heq : sch.data ++ ':' :: '/' :: '/' :: tail
      = (sch.data ++ [':', '/', '/']) ++ tail := by simp
  rw [schemeTest, heq, isPrefixOf_self_append, drop_len_append, h, Bool.and_self]

theorem or4_eq_true₁ (a b c d : Bool) (h : a = true) : (a || b || c || d) = true := by
  simp [h]

theorem or4_eq_true₂ (a b c d : Bool) (h : b = true) : (a || b || c || d) = true := by
  simp [h]

theorem or4_eq_true₃ (a b c d : Bool) (h : c = true) : (a || b || c || d) = true := by
  simp [h]

theorem or4_eq_true₄ (a b c d : Bool) (h : d = true) : (a || b || c || d) = true := by
  simp [h]

/-! ## Claim theorems -/

/-- C1: after a download-started event for an id, delivering any sequence of
download-progress events with deltas `d1..dn` for that id leaves the stored
accumulated byte count `downloadProgress[id]` equal to `d1 + ... + dn`: each
delta is added exactly once. -/
theorem progress_accumulates_exactly_once (st0 : EngineState) (id : Nat)
    (ds : List (ℚ × ℚ)) :
    (run (handleStarted st0 id)
        (ds.map fun p => Event.progress id p.1 p.2)).downloadProgress id
      = some (.num (ds.map Prod.fst).sum) := by
  have := run_progress_sum id ds (handleStarted st0 id) 0 (handleStarted_lookup st0 id)
  rwa [zero_add] at this

/-- C2 counterexample: processing a progress event whose delta makes the
accumulated bytes exceed `totalBytes` yields a derived percentage of 150 —
outside `[0, 100]`, so the value is not clamped as the claim states. -/
theorem percentage_not_clamped_cex :
    (handleProgress (handleStarted initialState 7) 7 150 100).2 = JSNum.num 150
      ∧ ¬ ((150 : ℚ) ≤ 100) :=
  ⟨by with_unfolding_all rfl, by norm_num⟩

/-- C2 amended: the derived percentage is the round-half-up of
`downloadedBytes * 100 / totalBytes` with NO clamping; it lies in `[0, 100]`
when the accumulated bytes do not exceed `totalBytes` (and `totalBytes > 0`),
but it can exceed 100 otherwise (see the counterexample: 150 of 100 gives
150). -/
theorem derivedPercentage_unclamped_half_up (a t : ℚ)
    (ha : 0 ≤ a) (ht : 0 < t) (hat : a ≤ t) :
    derivedPercentage (.num a) t = .num ((roundTiesUp (a / t * 100) : ℤ) : ℚ)
      ∧ 0 ≤ roundTiesUp (a / t * 100) ∧ roundTiesUp (a / t * 100) ≤ 100 := by
  refine ⟨?_, ?_, ?_⟩
  · simp [derivedPercentage, jsDiv, jsMul, toFixed0, ht.ne']
  · apply roundTiesUp_nonneg; positivity
  · apply roundTiesUp_le_hundred
    have h1 : a / t ≤ 1 := (div_le_one ht).mpr hat
    linarith

/-- Witness for C2 amended at `downloadedBytes = 1`, `totalBytes = 2`. -/
theorem derivedPercentage_unclamped_half_up_witness :
    derivedPercentage (.num 1) 2 = .num ((roundTiesUp ((1 : ℚ) / 2 * 100) : ℤ) : ℚ)
      ∧ 0 ≤ roundTiesUp ((1 : ℚ) / 2 * 100) ∧ roundTiesUp ((1 : ℚ) / 2 * 100) ≤ 100 :=
  derivedPercentage_unclamped_half_up 1 2 (by norm_num) (by norm_num) (by norm_num)

/-- C3 counterexample: start id 7, accumulate 50 bytes, then deliver a second
download-started for id 7 — the accumulator is reset to 0, not left at the
accumulated sum 50. -/
theorem duplicate_started_resets_cex :
    (handleStarted
        (handleProgress (handleStarted initialState 7) 7 50 100).1 7).downloadProgress 7
      = some (JSNum.num 0)
      ∧ JSNum.num 0 ≠ JSNum.num 50 :=
  ⟨by with_unfolding_all rfl, fun h => absurd (JSNum.num.inj h) (by norm_num)⟩

/-- C3 amended: a download-started event for an id unconditionally
re-initialises that id to 0 — a duplicate start DOES reset any accumulated
`downloadedBytes`. -/
theorem handleStarted_always_resets (st : EngineState) (id : Nat) :
    (handleStarted st id).downloadProgress id = some (JSNum.num 0) :=
  handleStarted_lookup st id

/-- C4 counterexample: a progress event with delta 50 for an id with no
accumulator stores `NaN` (from `undefined + 50`), not the delta 50. -/
theorem unknown_id_progress_nan_cex :
    (handleProgress initialState 7 50 100).1.downloadProgress 7 = some JSNum.nan
      ∧ JSNum.nan ≠ JSNum.num 50 :=
  ⟨by with_unfolding_all rfl, fun h => nomatch h⟩

/-- C4 amended: for a progress event whose id has no existing accumulator,
the engine stores `NaN` under that id (from reading `undefined` and adding
the delta) — the event is not dropped, but the resulting byte count is `NaN`,
not the delta. -/
theorem handleProgress_unknown_id_nan (st : EngineState) (id : Nat) (d t : ℚ)
    (h : st.downloadProgress id = none) :
    (handleProgress st id d t).1.downloadProgress id = some JSNum.nan := by
  simp [handleProgress, jsAddOpt, h]

/-- Witness for C4 amended: the empty initial state has no accumulator
for id 7. -/
theorem handleProgress_unknown_id_nan_witness :
    (handleProgress initialState 7 50 100).1.downloadProgress 7 = some JSNum.nan :=
  handleProgress_unknown_id_nan initialState 7 50 100 rfl

/-- C5 counterexample: after a start and a 50-byte delta with
`totalBytes = 0`, the derived percentage is `Infinity`, not 0. -/
theorem zero_total_percentage_cex :
    (handleProgress (handleStarted initialState 7) 7 50 0).2 = JSNum.inf
      ∧ JSNum.inf ≠ JSNum.num 0 :=
  ⟨by with_unfolding_all rfl, fun h => nomatch h⟩

/-- C5 amended: the division by `totalBytes` is NOT guarded: when
`totalBytes = 0` the derived percentage is `Infinity` if the accumulated
bytes are positive, `-Infinity` if negative, and `NaN` if zero — never
the number 0. -/
theorem handleProgress_zero_total_unguarded (st : EngineState) (id : Nat) (a d : ℚ)
    (h : st.downloadProgress id = some (.num a)) :
    (handleProgress st id d 0).2
      = if 0 < a + d then JSNum.inf
        else if a + d < 0 then JSNum.ninf else JSNum.nan := by
  have h100 : (0 : ℚ) < 100 := by norm_num
  rcases lt_trichotomy 0 (a + d) with h1 | h1 | h1
  · simp [handleProgress, derivedPercentage, jsAddOpt, jsAdd, jsDiv, jsMul, toFixed0,
      h, h1, h100]
  · simp [handleProgress, derivedPercentage, jsAddOpt, jsAdd, jsDiv, jsMul, toFixed0,
      h, ← h1]
  · simp [handleProgress, derivedPercentage, jsAddOpt, jsAdd, jsDiv, jsMul, toFixed0,
      h, h1, asymm h1, h100]

/-- Witness for C5 amended: accumulator at 0, delta 50, total 0 gives
`Infinity`. -/
theorem handleProgress_zero_total_unguarded_witness :
    (handleProgress (handleStarted initialState 7) 7 50 0).2
      = if (0 : ℚ) < 0 + 50 then JSNum.inf
        else if (0 : ℚ) + 50 < 0 then JSNum.ninf else JSNum.nan :=
  handleProgress_zero_total_unguarded (handleStarted initialState 7) 7 0 50
    (handleStarted_lookup initialState 7)

/-- C6: if the backend `fetch_records` query fails, `getRecords` leaves the
previously rendered record list unchanged; only a successful fetch replaces
it with the rows rendered from the fetched data. -/
theorem getRecords_failure_retains_list (e : String) (prev : String)
    (data : List RecordItem) :
    getRecords (.error e) prev = prev
      ∧ getRecords (.ok data) prev = String.join (data.map renderRow) :=
  ⟨rfl, rfl⟩

/-- C7: the GB branch of `getSize` divides by `1073741824 * 1024` (1024^4),
so one gibibyte (1024^3 bytes) formats as "0 GB" and it takes 1024^4 bytes
to format as "1 GB" — the claimed 1024^3 threshold scaling does not hold. -/
theorem getSize_gb_scale_bug :
    getSize 1073741824 = "0 GB" ∧ getSize (1073741824 * 1024) = "1 GB" :=
  ⟨by with_unfolding_all rfl, by with_unfolding_all rfl⟩

/-- C8: the size formatter maps 1023 to "1023 Bytes", 1536 to "1.5 KB" and
1048576 to "1 MB". -/
theorem getSize_reference_values :
    getSize 1023 = "1023 Bytes" ∧ getSize 1536 = "1.5 KB"
      ∧ getSize 1048576 = "1 MB" :=
  ⟨by with_unfolding_all rfl, by with_unfolding_all rfl, by with_unfolding_all rfl⟩

/-- C9: the URL classifier accepts "https://example.com/file.zip", rejects
"not a url", and rejects "https://example.com/" (no file-like final path
segment). -/
theorem isDownloadUrl_reference_values :
    isDownloadUrl "https://example.com/file.zip" = true
      ∧ isDownloadUrl "not a url" = false
      ∧ isDownloadUrl "https://example.com/" = false :=
  ⟨rfl, rfl, rfl⟩

/-- C10: the classifier consults no file-extension allow-list: every string
built from a lowercase scheme among https/http/ftp/ftps, then `://`, a
non-empty host/path over the allowed character class, a slash, a non-empty
final segment over its character class, a dot and one `[a-z0-9]` character
(followed by anything) is accepted. -/
theorem isDownloadUrl_no_extension_allowlist (sch : String) (host seg : List Char)
    (c : Char) (rest : List Char)
    (hs : sch = "https" ∨ sch = "http" ∨ sch = "ftp" ∨ sch = "ftps")
    (hhost : host ≠ [] ∧ ∀ ch ∈ host, isAChar ch = true)
    (hseg : seg ≠ [] ∧ ∀ ch ∈ seg, isBChar ch = true)
    (hc : isCChar c = true) :
    isDownloadUrl (String.mk (sch.data ++ ':' :: '/' :: '/' ::
      (host ++ '/' :: (seg ++ '.' :: c :: rest)))) = true := by
  have hmatch : matchHost (host ++ '/' :: (seg ++ '.' :: c :: rest)) = true :=
    matchHost_append host _ hhost.1 hhost.2
      (matchSeg_append seg c rest hseg.1 hseg.2 hc)
  rcases hs with h | h | h | h <;> subst h
  · exact or4_eq_true₁ _ _ _ _ (schemeTest_append "https" _ hmatch)
  · exact or4_eq_true₂ _ _ _ _ (schemeTest_append "http" _ hmatch)
  · exact or4_eq_true₃ _ _ _ _ (schemeTest_append "ftp" _ hmatch)
  · exact or4_eq_true₄ _ _ _ _ (schemeTest_append "ftps" _ hmatch)

/-- Witness for C10 at "https://example.com/file.q" — ".q" is not a known
file extension yet the classifier accepts it. -/
theorem isDownloadUrl_no_extension_allowlist_witness :
    isDownloadUrl (String.mk ("https".data ++ ':' :: '/' :: '/' ::
      ("example.com".data ++ '/' :: ("file".data ++ '.' :: 'q' :: [])))) = true :=
  isDownloadUrl_no_extension_allowlist "https" "example.com".data "file".data 'q' []
    (Or.inl rfl) ⟨by decide, by decide⟩ ⟨by decide, by decide⟩ (by decide)

end Yad
